import Mathlib

/-!
Verification development for the portrait-studio generation-batch
orchestrator (src/unnamed/part_000, the current App.tsx, together with
src/services/geminiService.ts).

The orchestrator is a single-threaded, event-loop program.  We embed it
shallowly:

* the React state (generation results, busy flags, cache refs, the abort
  controller ref) becomes an explicit `AppState` record;
* each synchronous run of code between two suspension points (awaits)
  becomes a pure state-transformer translated line by line from the
  source;
* resolutions of in-flight remote calls and user cancellation become an
  event type `AppEvent`, folded over the state by `stepApp`;
* every issued remote call is recorded in a chronological trace so that
  claims about which calls are issued, and in which order, are statable.

Remote results (the optimize rewrite, the assembled payload, per-call
generate outcomes) are environment parameters: the remote service is an
external collaborator, so its answers are universally quantified.
-/

/-- Status of one generation item, `GenerationResult.status` in
src/types.ts: 'pending' | 'success' | 'error' | 'cancelled'. -/
inductive GenStatus
  | pending
  | success
  | error
  | cancelled
deriving DecidableEq

/-- Identifier of a generation item.  The source builds the string
id `gen-` + Date.now() + `-` + i (part_000 line 381); we keep the two
numeric components, which determine the string. -/
structure GenId where
  batchTime : Nat
  idx : Nat
deriving DecidableEq

/-- One placeholder/result slot of a batch, `GenerationResult` in
src/types.ts (the optional `retryCount` field is attached dynamically by
handleRetryImage in part_000). -/
structure GenResult where
  id : GenId
  status : GenStatus
  imageUrl : Option String := none
  errorMessage : Option String := none
  isQuotaError : Option Bool := none
  retryCount : Option Nat := none
deriving DecidableEq

/-- A person bound to a photo, `CharacterDetail` in src/types.ts. -/
structure CharacterDetail where
  id : String
  name : String
  description : String
  isDescriptionLoading : Bool
deriving DecidableEq

/-- An uploaded source photo, `UploadedPhoto` in src/types.ts (the raw
file handle and preview URL are browser resources and carry no
orchestrator-relevant data beyond identity). -/
structure UploadedPhoto where
  id : String
  characters : List CharacterDetail
deriving DecidableEq

/-- The retained generation context, `lastGeneratedPayloadRef.current`
in part_000 line 54: the encoded reference images plus the assembled
full prompt.  Image parts are kept as opaque strings. -/
structure Payload where
  imageParts : List String
  fullPrompt : String
deriving DecidableEq

/-- A chronological record of the orchestrator's externally visible
actions: remote calls issued, and settlement of an awaited retry call. -/
inductive TraceEntry
  | optimize (scenePromptText : String)
  | generate (model : String) (prompt : String) (ctrl : Option Nat)
  | settled (id : GenId)
deriving DecidableEq

/-- The orchestrator-relevant application state of part_000: the React
state hooks and the mutable refs.  Abort controllers are modelled as a
table of aborted-flags indexed by allocation order (`controllers`),
with `nextCtrlId` the next fresh index and `abortControllerRef` the
current controller, mirroring `abortControllerRef.current`. -/
structure AppState where
  generationResults : List GenResult
  fullGeneratedPrompt : String
  isPromptOptimizing : Bool
  isGenerating : Bool
  loadingMessage : String
  globalError : Option String
  lastUsedScenePrompt : String
  cachedOptimizedPrompt : String
  lastGeneratedPayload : Option Payload
  controllers : Nat → Bool
  nextCtrlId : Nat
  abortControllerRef : Option Nat
  trace : List TraceEntry

/-- The state of a fresh session: empty results, empty cache slots, no
controller allocated, nothing issued. -/
def initialAppState : AppState where
  generationResults := []
  fullGeneratedPrompt := ""
  isPromptOptimizing := false
  isGenerating := false
  loadingMessage := ""
  globalError := none
  lastUsedScenePrompt := ""
  cachedOptimizedPrompt := ""
  lastGeneratedPayload := none
  controllers := fun _ => false
  nextCtrlId := 0
  abortControllerRef := none
  trace := []

/-- Whether the second character list is a prefix of the first. -/
def startsWithList : List Char → List Char → Bool
  | _, [] => true
  | [], _ :: _ => false
  | c :: cs, p :: ps => c == p && startsWithList cs ps

/-- Whether the second character list occurs contiguously in the first. -/
def containsList : List Char → List Char → Bool
  | [], pat => pat.isEmpty
  | c :: cs, pat => startsWithList (c :: cs) pat || containsList cs pat

/-- JS `s.trim()`: remove leading and trailing whitespace. -/
def jsTrim (s : String) : String :=
  String.mk (((s.data.dropWhile Char.isWhitespace).reverse.dropWhile Char.isWhitespace).reverse)

/-- JS `msg.includes(pat)`: `pat` occurs as a contiguous substring. -/
def containsSubstr (msg pat : String) : Bool :=
  containsList msg.toList pat.toList

/-- The quota-error test applied to a normalized error message in the
generate catch callback (part_000 line 440) and in handleRetryImage
(line 585). -/
def isQuotaErrorMsg (msg : String) : Bool :=
  containsSubstr msg "429" || containsSubstr msg "Quota Exceeded" ||
    containsSubstr msg "RESOURCE_EXHAUSTED"

/-- Model-name resolution inside generateSinglePortrait
(geminiService.ts line 85): `modelOverride || 'gemini-3-pro-image-preview'`
(an empty override string is falsy in JS). -/
def generateModelName (modelOverride : Option String) : String :=
  if modelOverride.getD "" ≠ "" then modelOverride.getD ""
  else "gemini-3-pro-image-preview"

/-- Model override chosen by handleRetryImage (part_000 line 568):
`failedResult.isQuotaError ? 'gemini-2.5-flash-image' : undefined`; an
absent flag is falsy. -/
def retryModelOverride (isQuotaError : Option Bool) : Option String :=
  if isQuotaError.getD false then some "gemini-2.5-flash-image" else none

/-- The fixed ordered list of safety-mitigation suffixes of
handleRetryImage (part_000 lines 553-560). -/
def safetyMitigationVariations : List String :=
  [ ""
  , "\n\nNote: Replace any specific celebrity/person names with \"protagonist of [their famous work]\" or generic descriptions. Use \"character from\" instead of direct names."
  , "\n\nNote: Avoid mentioning real people by name. Reference them by role or archetype (e.g., \"a musician\", \"an athlete\", \"the character from X\")."
  , "\n\nNote: Use artistic/cinematic language. Replace specific names with descriptive terms like \"subject\", \"figure\", \"individual\"."
  , "\n\nNote: Emphasis on artistic interpretation rather than realistic likeness. Focus on style, mood, and composition."
  , "\n\nNote: Frame as fictional/artistic portrait. Avoid references that could trigger deepfake protection."
  ]

/-- Mitigation index selected for a retry (part_000 line 564):
`Math.min(retryCount + 1, safetyMitigationVariations.length - 1)`. -/
def variationIndex (retryCount : Nat) : Nat :=
  min (retryCount + 1) (safetyMitigationVariations.length - 1)

/-- The prompt sent by a retry (part_000 line 565): the retained full
prompt with the selected mitigation suffix appended. -/
def retryPromptVariation (fullPrompt : String) (retryCount : Nat) : String :=
  fullPrompt ++ (safetyMitigationVariations.getD (variationIndex retryCount) "")

/-- Number of optimize (rewrite) calls recorded in a trace. -/
def countOptimize (t : List TraceEntry) : Nat :=
  (t.filter fun e =>
    match e with
    | .optimize _ => true
    | _ => false).length

/-- First item of the result list carrying the given id (the source
routes every callback by `res.id === placeholder.id`). -/
def itemOf : List GenResult → GenId → Option GenResult
  | [], _ => none
  | r :: rs, i => if r.id = i then some r else itemOf rs i

/-- Status of the item carrying the given id. -/
def statusOf (results : List GenResult) (i : GenId) : Option GenStatus :=
  (itemOf results i).map (·.status)

/-- The pending-to-cancelled mapping of handleCancel (part_000 lines
335-337): a pending item becomes cancelled, every other item is kept. -/
def cancelPendingResult (r : GenResult) : GenResult :=
  if r.status = .pending then { r with status := .cancelled } else r

/-- handleCancel (part_000 lines 325-338): abort the current controller
and drop the ref, clear the busy flags, and mark every still-pending
item cancelled. -/
def handleCancel (s : AppState) : AppState :=
  let s1 :=
    match s.abortControllerRef with
    | some c =>
        { s with controllers := Function.update s.controllers c true
               , abortControllerRef := none }
    | none => s
  { s1 with isGenerating := false
          , loadingMessage := ""
          , isPromptOptimizing := false
          , generationResults := s1.generationResults.map cancelPendingResult }

/-- JS `photos.flatMap(p => p.characters)` (part_000 line 360). -/
def allCharactersOf (photos : List UploadedPhoto) : List CharacterDetail :=
  photos.flatMap (·.characters)

/-- The placeholder allocation of handleGenerate (part_000 lines
380-383): `numImages` fresh items, ids built from the shared timestamp
and the array index, all pending. -/
def mkPlaceholders (now numImages : Nat) : List GenResult :=
  (List.range numImages).map fun i =>
    { id := { batchTime := now, idx := i }, status := .pending }

/-- The synchronous prefix of handleGenerate (part_000 lines 359-384):
validate the inputs (no remote activity, a local error message on
violation), then flip the busy flag, allocate a fresh abort controller,
and publish the placeholders.  Returns the new state together with the
allocated controller id (`none` when validation failed). -/
def handleGenerateStart (s : AppState) (photos : List UploadedPhoto)
    (scenePrompt : String) (numImages : Nat) (now : Nat) :
    AppState × Option Nat :=
  if (allCharactersOf photos).length = 0 then
    ({ s with globalError := some "Please upload at least one photo and define a character." }, none)
  else if jsTrim scenePrompt = "" then
    ({ s with globalError := some "Describe the scene first." }, none)
  else
    ({ s with isGenerating := true
            , globalError := none
            , fullGeneratedPrompt := ""
            , controllers := Function.update s.controllers s.nextCtrlId false
            , nextCtrlId := s.nextCtrlId + 1
            , abortControllerRef := some s.nextCtrlId
            , generationResults := mkPlaceholders now numImages },
     some s.nextCtrlId)

/-- The single-slot cache test of handleGenerate (part_000 line 390):
the incoming text is byte-identical to the last-submitted one and a
cached rewrite exists (a cached empty string is falsy in JS). -/
def cacheHit (s : AppState) (scenePrompt : String) : Bool :=
  (scenePrompt == s.lastUsedScenePrompt) && !(s.cachedOptimizedPrompt == "")

/-- The cache-miss dispatch of handleGenerate (part_000 lines 397-399,
up to the suspension on optimizePrompt): set the optimizing indicators
and issue the optimize remote call. -/
def issueOptimizeCall (s : AppState) (scenePrompt : String) : AppState :=
  { s with loadingMessage := "Optimizing scene prompt..."
         , isPromptOptimizing := true
         , trace := s.trace ++ [.optimize scenePrompt] }

/-- The continuation run when the optimize call resolves (part_000
lines 400-404): if the batch controller has been aborted, return
without touching anything (in particular without storing the fetched
rewrite); otherwise store (raw prompt, rewritten prompt) as the new
single cache entry. -/
def afterOptimizeResolved (s : AppState) (ctrl : Nat)
    (scenePrompt optResult : String) : AppState :=
  if s.controllers ctrl then s
  else
    { s with lastUsedScenePrompt := scenePrompt
           , cachedOptimizedPrompt := optResult }

/-- The optimization phase of an uninterrupted handleGenerate run
(part_000 lines 387-405): on a cache hit reuse the cached rewrite and
issue no call; on a miss issue the optimize call and, once it resolves
un-aborted, store the new cache entry.  Returns the optimized text. -/
def optimizePhase (s : AppState) (ctrl : Nat)
    (scenePrompt optResult : String) : AppState × String :=
  if cacheHit s scenePrompt then
    ({ s with fullGeneratedPrompt := s.cachedOptimizedPrompt },
     s.cachedOptimizedPrompt)
  else
    (afterOptimizeResolved (issueOptimizeCall s scenePrompt) ctrl
       scenePrompt optResult,
     optResult)

/-- An uninterrupted run of handleGenerate from invocation through the
issuing of the fan-out (part_000 lines 359-421): validation and
placeholders, the optimization phase, retention of the assembled
payload for retries, and one generate call per placeholder, all with
the default model, the shared full prompt and the batch's controller.
`optResult` and `payload` are the environment's resolutions of the two
awaited steps (optimizePrompt and constructPromptPayload). -/
def handleGenerateToFanout (s : AppState) (photos : List UploadedPhoto)
    (scenePrompt : String) (numImages : Nat) (now : Nat)
    (optResult : String) (payload : Payload) : AppState :=
  match handleGenerateStart s photos scenePrompt numImages now with
  | (s1, none) => s1
  | (s1, some ctrl) =>
    let s2 := (optimizePhase s1 ctrl scenePrompt optResult).1
    let s3 :=
      { s2 with lastGeneratedPayload := some payload
              , fullGeneratedPrompt := payload.fullPrompt
              , isPromptOptimizing := false
              , loadingMessage := "Rendering portraits..." }
    { s3 with trace := s3.trace ++ s3.generationResults.map fun _ =>
        .generate (generateModelName none) payload.fullPrompt (some ctrl) }

/-- The per-item success callback of the fan-out (part_000 lines
422-429): gated on the batch's cancellation signal; otherwise route the
image to the item by id. -/
def generateThenCallback (aborted : Bool) (i : GenId) (img : String)
    (results : List GenResult) : List GenResult :=
  if aborted then results
  else results.map fun (r : GenResult) =>
    if r.id = i then { r with status := .success, imageUrl := some img } else r

/-- The per-item failure callback of the fan-out (part_000 lines
430-446): with the cancellation signal active (or a Cancelled sentinel)
the item becomes cancelled; otherwise it becomes an error carrying the
normalized message and the quota flag. -/
def generateCatchCallback (aborted : Bool) (i : GenId) (msg : String)
    (results : List GenResult) : List GenResult :=
  if aborted || (msg == "Cancelled") then
    results.map fun (r : GenResult) =>
      if r.id = i then { r with status := .cancelled } else r
  else
    results.map fun (r : GenResult) =>
      if r.id = i then
        { r with status := .error
               , errorMessage := some msg
               , isQuotaError := some (isQuotaErrorMsg msg) }
      else r

/-- Events arriving at the event loop after a fan-out is in flight: the
user's cancel action, or the resolution of one generate call belonging
to the batch that allocated controller `c`. -/
inductive AppEvent
  | cancel
  | genSuccess (c : Nat) (i : GenId) (img : String)
  | genFailure (c : Nat) (i : GenId) (msg : String)

/-- One event-loop step: cancel runs handleCancel; a resolution runs
the corresponding callback, reading the abort flag of the controller
the call was issued with. -/
def stepApp (s : AppState) : AppEvent → AppState
  | .cancel => handleCancel s
  | .genSuccess c i img =>
      { s with generationResults :=
          generateThenCallback (s.controllers c) i img s.generationResults }
  | .genFailure c i msg =>
      { s with generationResults :=
          generateCatchCallback (s.controllers c) i msg s.generationResults }

/-- Folding a sequence of events over the state. -/
def runApp (s : AppState) (evs : List AppEvent) : AppState :=
  evs.foldl stepApp s

/-- Resolution of the single awaited generate call of a retry. -/
inductive RetryOutcome
  | success (img : String)
  | failure (msg : String)

/-- handleRetryImage (part_000 lines 540-590): require the retained
generation context, locate the item, pick the mitigation suffix from
the item's retry counter and the model from its quota flag, reset the
item to pending with an incremented counter, issue exactly one generate
call (with no cancellation signal), and on settlement apply the same
success/error mapping as the fan-out.  `outcome` is the environment's
resolution of that call; its settlement is recorded in the trace. -/
def handleRetryImage (s : AppState) (failedResult : GenResult)
    (outcome : RetryOutcome) : AppState :=
  match s.lastGeneratedPayload with
  | none =>
      { s with globalError := some "Cannot retry: generation data not available. Please regenerate all." }
  | some payload =>
    match s.generationResults.find? (fun r => r.id == failedResult.id) with
    | none => s
    | some _ =>
      let retryCount := failedResult.retryCount.getD 0
      let promptVariation := retryPromptVariation payload.fullPrompt retryCount
      let modelToUse := retryModelOverride failedResult.isQuotaError
      let s1 :=
        { s with generationResults := s.generationResults.map fun (r : GenResult) =>
            if r.id = failedResult.id then
              { r with status := .pending
                     , errorMessage := none
                     , retryCount := some (retryCount + 1)
                     , isQuotaError := some false }
            else r }
      let s2 :=
        { s1 with trace := s1.trace ++
            [TraceEntry.generate (generateModelName modelToUse) promptVariation none] }
      let s3 :=
        match outcome with
        | .success img =>
            { s2 with generationResults := s2.generationResults.map fun (r : GenResult) =>
                if r.id = failedResult.id then
                  { r with status := .success, imageUrl := some img }
                else r }
        | .failure msg =>
            { s2 with generationResults := s2.generationResults.map fun (r : GenResult) =>
                if r.id = failedResult.id then
                  { r with status := .error
                         , errorMessage := some msg
                         , isQuotaError := some (isQuotaErrorMsg msg) }
                else r }
      { s3 with trace := s3.trace ++ [TraceEntry.settled failedResult.id] }

/-- handleRetryAllFailed (part_000 lines 592-601): snapshot the items
currently in error state and retry them one at a time, each retry fully
awaited (issued and settled) before the next begins.  `outcomes` is the
environment's resolution per retried item. -/
def handleRetryAllFailed (s : AppState) (outcomes : GenId → RetryOutcome) :
    AppState :=
  let failedResults := s.generationResults.filter fun r => r.status == .error
  failedResults.foldl (fun st f => handleRetryImage st f (outcomes f.id)) s

/-- The trace footprint of one awaited retry of item `f`: its single
generate call (model chosen by the quota flag, prompt carrying the
mitigation suffix for the item's counter, no cancellation signal),
immediately followed by its settlement. -/
def retryBlock (payload : Payload) (f : GenResult) : List TraceEntry :=
  [ TraceEntry.generate (generateModelName (retryModelOverride f.isQuotaError))
      (retryPromptVariation payload.fullPrompt (f.retryCount.getD 0)) none
  , TraceEntry.settled f.id ]

/-- The event belongs to the batch holding controller `c` (a generate
resolution of that batch), or is a user cancel. -/
def evUses (c : Nat) : AppEvent → Prop
  | .cancel => True
  | .genSuccess c2 _ _ => c2 = c
  | .genFailure c2 _ _ => c2 = c

/-- A concrete uploaded photo with one analyzed character. -/
def samplePhoto : UploadedPhoto :=
  { id := "p1"
  , characters :=
      [{ id := "c1", name := "Alice", description := "tall", isDescriptionLoading := false }] }

/-- A concrete retained generation context. -/
def samplePayload : Payload := { imageParts := ["img1"], fullPrompt := "PROMPT" }

/-- A concrete state with one batch of two items fanned out and both
generate calls still in flight. -/
def fanState : AppState :=
  handleGenerateToFanout initialAppState [samplePhoto] "beach" 2 100 "opt" samplePayload

/-- A second Generate action invoked on top of `fanState` while the
first batch's calls are still in flight. -/
def fanState2 : AppState :=
  handleGenerateToFanout fanState [samplePhoto] "city" 2 200 "opt2" samplePayload

/-- A concrete state after a batch in which the first item failed with
a quota-shaped error and the second succeeded, with the generation
context retained for retries. -/
def errState : AppState :=
  { fanState with
      generationResults :=
        [ { id := { batchTime := 100, idx := 0 }, status := GenStatus.error
          , errorMessage := some "Quota Exceeded (429)", isQuotaError := some true }
        , { id := { batchTime := 100, idx := 1 }, status := GenStatus.success
          , imageUrl := some "img" } ]
      lastGeneratedPayload := some samplePayload }

/-! Helper lemmas about item lookup and the id-preserving result maps. -/

lemma itemOf_eq_some_id {l : List GenResult} {i : GenId} {r : GenResult}
    (h : itemOf l i = some r) : r.id = i := by
  induction l with
  | nil => simp [itemOf] at h
  | cons a l ih =>
    by_cases ha : a.id = i
    · simp [itemOf, ha] at h
      simpa [← h] using ha
    · simp [itemOf, ha] at h
      exact ih h

lemma itemOf_map_of_id_preserving (f : GenResult → GenResult)
    (hf : ∀ r, (f r).id = r.id) (l : List GenResult) (i : GenId) :
    itemOf (l.map f) i = (itemOf l i).map f := by
  induction l with
  | nil => simp [itemOf]
  | cons a l ih =>
    by_cases ha : a.id = i
    · simp [itemOf, hf, ha]
    · simp [itemOf, hf, ha, ih]

lemma map_guard_id_of_id_absent (l : List GenResult) (i : GenId)
    (f : GenResult → GenResult) (h : ∀ r ∈ l, r.id ≠ i) :
    (l.map fun r => if r.id = i then f r else r) = l := by
  induction l with
  | nil => simp
  | cons a l ih =>
    have ha : a.id ≠ i := h a (by simp)
    simp [ha, ih fun r hr => h r (by simp [hr])]

/-! Claim C5: the retry mitigation index. -/

/-- C5: retry_item selects the mitigation suffix at index
min(retry_count + 1, list_length - 1) of the fixed 6-entry list:
retry_count 0 selects index 1, retry_count 4 selects index 5 (the last
entry), retry_count 10 also selects index 5, and the index is always in
bounds (it saturates at the last entry). -/
theorem claim5_variation_index :
    safetyMitigationVariations.length = 6 ∧
    variationIndex 0 = 1 ∧
    variationIndex 4 = 5 ∧
    variationIndex 10 = 5 ∧
    (∀ rc : Nat, variationIndex rc = min (rc + 1) (safetyMitigationVariations.length - 1)) ∧
    (∀ rc : Nat, variationIndex rc < safetyMitigationVariations.length) := by
  refine ⟨rfl, rfl, rfl, rfl, fun rc => rfl, fun rc => ?_⟩
  have h6 : safetyMitigationVariations.length = 6 := rfl
  simp only [variationIndex, h6]
  omega

/-! Claim C2: placeholder publication by start_batch. -/

/-- C2: for variation_count in {2,4,8}, the synchronous prefix of
start_batch with non-empty subjects and a non-whitespace scene prompt
publishes exactly variation_count items, all pending, with pairwise
distinct identifiers, and issues no remote call (the trace is
unchanged at publication time; the optimize and generate calls only
appear in later phases of the run). -/
theorem claim2_placeholders (s : AppState) (photos : List UploadedPhoto)
    (scenePrompt : String) (n now : Nat)
    (hchars : allCharactersOf photos ≠ [])
    (hprompt : jsTrim scenePrompt ≠ "")
    (_hn : n = 2 ∨ n = 4 ∨ n = 8) :
    ((handleGenerateStart s photos scenePrompt n now).1.generationResults.length = n) ∧
    (∀ r ∈ (handleGenerateStart s photos scenePrompt n now).1.generationResults,
       r.status = GenStatus.pending) ∧
    ((handleGenerateStart s photos scenePrompt n now).1.generationResults.map (·.id)).Nodup ∧
    ((handleGenerateStart s photos scenePrompt n now).1.trace = s.trace) ∧
    ((handleGenerateStart s photos scenePrompt n now).2 = some s.nextCtrlId) := by
  have hlen : ¬ (allCharactersOf photos).length = 0 := by
    simpa [List.length_eq_zero] using hchars
  refine ⟨?_, ?_, ?_, ?_, ?_⟩ <;>
    simp only [handleGenerateStart, if_neg hlen, if_neg hprompt]
  · simp [mkPlaceholders]
  · intro r hr
    simp only [mkPlaceholders, List.mem_map, List.mem_range] at hr
    obtain ⟨i, _, rfl⟩ := hr
    rfl
  · have : (mkPlaceholders now n).map (·.id) =
        (List.range n).map fun i => GenId.mk now i := by
      simp [mkPlaceholders, List.map_map, Function.comp]
    rw [this]
    refine List.Nodup.map ?_ (List.nodup_range n)
    intro a b hab
    simpa [GenId.mk.injEq] using hab

/-- Witness for C2 at a concrete input: one subject, prompt "beach",
4 variations. -/
theorem claim2_placeholders_witness :
    (allCharactersOf [samplePhoto] ≠ [] ∧ jsTrim "beach" ≠ "" ∧ (4 = 2 ∨ 4 = 4 ∨ 4 = 8)) ∧
    ((handleGenerateStart initialAppState [samplePhoto] "beach" 4 100).1.generationResults.length = 4 ∧
     (∀ r ∈ (handleGenerateStart initialAppState [samplePhoto] "beach" 4 100).1.generationResults,
        r.status = GenStatus.pending) ∧
     ((handleGenerateStart initialAppState [samplePhoto] "beach" 4 100).1.generationResults.map (·.id)).Nodup ∧
     ((handleGenerateStart initialAppState [samplePhoto] "beach" 4 100).1.trace = initialAppState.trace) ∧
     ((handleGenerateStart initialAppState [samplePhoto] "beach" 4 100).2 = some initialAppState.nextCtrlId)) :=
  ⟨⟨by decide, by decide, by decide⟩,
   claim2_placeholders initialAppState [samplePhoto] "beach" 4 100
     (by decide) (by decide) (by decide)⟩

/-! Claim C8: local validation failures. -/

/-- C8: start_batch with zero subjects, or with a whitespace-only scene
prompt, reports a local validation error synchronously, creates no
Generation Items, allocates no controller, and performs no remote
calls (the trace is unchanged). -/
theorem claim8_validation (s : AppState) (photos : List UploadedPhoto)
    (scenePrompt : String) (n now : Nat)
    (h : allCharactersOf photos = [] ∨ jsTrim scenePrompt = "") :
    ((handleGenerateStart s photos scenePrompt n now).2 = none) ∧
    ((handleGenerateStart s photos scenePrompt n now).1.generationResults = s.generationResults) ∧
    ((handleGenerateStart s photos scenePrompt n now).1.trace = s.trace) ∧
    ((handleGenerateStart s photos scenePrompt n now).1.abortControllerRef = s.abortControllerRef) ∧
    ((handleGenerateStart s photos scenePrompt n now).1.nextCtrlId = s.nextCtrlId) ∧
    ((handleGenerateStart s photos scenePrompt n now).1.isGenerating = s.isGenerating) ∧
    ((handleGenerateStart s photos scenePrompt n now).1.globalError.isSome = true) := by
  by_cases hchars : allCharactersOf photos = []
  · simp [handleGenerateStart, hchars]
  · have hprompt : jsTrim scenePrompt = "" := by
      rcases h with h1 | h2
      · exact absurd h1 hchars
      · exact h2
    simp [handleGenerateStart, hchars, hprompt]

/-- Witness for C8 at a concrete input: no photos at all. -/
theorem claim8_validation_witness :
    (allCharactersOf [] = [] ∨ jsTrim "beach" = "") ∧
    ((handleGenerateStart initialAppState [] "beach" 4 100).2 = none ∧
     (handleGenerateStart initialAppState [] "beach" 4 100).1.generationResults = initialAppState.generationResults ∧
     (handleGenerateStart initialAppState [] "beach" 4 100).1.trace = initialAppState.trace ∧
     (handleGenerateStart initialAppState [] "beach" 4 100).1.abortControllerRef = initialAppState.abortControllerRef ∧
     (handleGenerateStart initialAppState [] "beach" 4 100).1.nextCtrlId = initialAppState.nextCtrlId ∧
     (handleGenerateStart initialAppState [] "beach" 4 100).1.isGenerating = initialAppState.isGenerating ∧
     (handleGenerateStart initialAppState [] "beach" 4 100).1.globalError.isSome = true) :=
  ⟨Or.inl (by decide),
   claim8_validation initialAppState [] "beach" 4 100 (Or.inl (by decide))⟩

/-! Claim C10: cancelling during the optimize call leaves the cache
untouched. -/

/-- C10: when a batch is cancelled while its optimize call is
outstanding, the single-slot optimization cache (last-submitted scene
prompt and its cached rewrite) is left exactly as it was before the
batch started: the abort check that guards the continuation runs before
the cache store, so the fetched rewrite is discarded. -/
theorem claim10_cache_untouched_on_cancel (s : AppState)
    (photos : List UploadedPhoto) (scenePrompt : String) (n now : Nat)
    (optResult : String)
    (hchars : allCharactersOf photos ≠ [])
    (hprompt : jsTrim scenePrompt ≠ "") :
    (afterOptimizeResolved
        (handleCancel
          (issueOptimizeCall
            (handleGenerateStart s photos scenePrompt n now).1 scenePrompt))
        s.nextCtrlId scenePrompt optResult).lastUsedScenePrompt
      = s.lastUsedScenePrompt ∧
    (afterOptimizeResolved
        (handleCancel
          (issueOptimizeCall
            (handleGenerateStart s photos scenePrompt n now).1 scenePrompt))
        s.nextCtrlId scenePrompt optResult).cachedOptimizedPrompt
      = s.cachedOptimizedPrompt := by
  constructor <;>
    simp [handleGenerateStart, hchars, hprompt,
      issueOptimizeCall, handleCancel, afterOptimizeResolved,
      Function.update_same]

/-- Witness for C10 at a concrete input. -/
theorem claim10_cache_untouched_on_cancel_witness :
    (allCharactersOf [samplePhoto] ≠ [] ∧ jsTrim "beach" ≠ "") ∧
    ((afterOptimizeResolved
        (handleCancel
          (issueOptimizeCall
            (handleGenerateStart initialAppState [samplePhoto] "beach" 2 100).1 "beach"))
        initialAppState.nextCtrlId "beach" "a rewritten brief").lastUsedScenePrompt
      = initialAppState.lastUsedScenePrompt ∧
     (afterOptimizeResolved
        (handleCancel
          (issueOptimizeCall
            (handleGenerateStart initialAppState [samplePhoto] "beach" 2 100).1 "beach"))
        initialAppState.nextCtrlId "beach" "a rewritten brief").cachedOptimizedPrompt
      = initialAppState.cachedOptimizedPrompt) :=
  ⟨⟨by decide, by decide⟩,
   claim10_cache_untouched_on_cancel initialAppState [samplePhoto] "beach" 2 100
     "a rewritten brief" (by decide) (by decide)⟩

/-! Facts about an uninterrupted start_batch run. -/

lemma optimizePhase_results (s : AppState) (c : Nat) (p o : String) :
    ((optimizePhase s c p o).1).generationResults = s.generationResults := by
  simp only [optimizePhase, issueOptimizeCall, afterOptimizeResolved]
  split
  · rfl
  · split <;> rfl

lemma handleGenerateToFanout_results (s : AppState)
    (photos : List UploadedPhoto) (p : String) (n now : Nat)
    (optResult : String) (payload : Payload)
    (hchars : allCharactersOf photos ≠ [])
    (hprompt : jsTrim p ≠ "") :
    (handleGenerateToFanout s photos p n now optResult payload).generationResults
      = mkPlaceholders now n := by
  have hlen : ¬ (allCharactersOf photos).length = 0 := by
    simpa [List.length_eq_zero] using hchars
  simp only [handleGenerateToFanout, handleGenerateStart, if_neg hlen, if_neg hprompt]
  simp [optimizePhase_results]

/-! Claim C4: what starting a new batch does to the previous one. -/

/-- C4 counterexample: after a first batch fans out (its two generate
calls are recorded against controller 0 and never resolve) and a second
Generate action runs to its own fan-out, controller 0 — the previous
batch's cancellation signal — has never been fired: starting a new
batch does not signal cancellation to the previous batch's outstanding
generate calls (handleGenerate installs a fresh controller without
calling abort on the old one). -/
theorem claim4_counterexample :
    (TraceEntry.generate "gemini-3-pro-image-preview" "PROMPT" (some 0) ∈ fanState2.trace) ∧
    fanState2.controllers 0 = false ∧
    fanState2.abortControllerRef = some 1 := by
  decide

/-- C4 (amended): starting a new batch does not signal cancellation to
the previous batch's outstanding generate calls; it supersedes the
previous batch by replacing the published items and the controller
reference.  A stale callback from the previous batch (running against
its own item id, whose batch timestamp differs from the new batch's)
leaves the new batch's items unchanged, whether it is a success or a
failure resolution and regardless of the old controller's state. -/
theorem claim4_amended (s : AppState) (photos : List UploadedPhoto)
    (p : String) (n now : Nat) (optResult : String) (payload : Payload)
    (oldCtrl oldT oldI : Nat) (img msg : String)
    (hchars : allCharactersOf photos ≠ [])
    (hprompt : jsTrim p ≠ "")
    (ht : oldT ≠ now) :
    (generateThenCallback
        ((handleGenerateToFanout s photos p n now optResult payload).controllers oldCtrl)
        ⟨oldT, oldI⟩ img
        (handleGenerateToFanout s photos p n now optResult payload).generationResults
      = (handleGenerateToFanout s photos p n now optResult payload).generationResults) ∧
    (generateCatchCallback
        ((handleGenerateToFanout s photos p n now optResult payload).controllers oldCtrl)
        ⟨oldT, oldI⟩ msg
        (handleGenerateToFanout s photos p n now optResult payload).generationResults
      = (handleGenerateToFanout s photos p n now optResult payload).generationResults) := by
  have habs : ∀ r ∈ (handleGenerateToFanout s photos p n now optResult payload).generationResults,
      r.id ≠ (⟨oldT, oldI⟩ : GenId) := by
    rw [handleGenerateToFanout_results s photos p n now optResult payload hchars hprompt]
    intro r hr
    simp only [mkPlaceholders, List.mem_map, List.mem_range] at hr
    obtain ⟨i, _, rfl⟩ := hr
    simp only [ne_eq, GenId.mk.injEq, not_and]
    intro h1
    exact absurd h1.symm ht
  constructor
  · unfold generateThenCallback
    split
    · rfl
    · exact map_guard_id_of_id_absent _ _ _ habs
  · unfold generateCatchCallback
    split <;> exact map_guard_id_of_id_absent _ _ _ habs

/-- Witness for the amended C4 at a concrete input: the second batch of
`fanState2` is untouched by stale resolutions of the first batch's
items. -/
theorem claim4_amended_witness :
    (allCharactersOf [samplePhoto] ≠ [] ∧ jsTrim "city" ≠ "" ∧ (100 : Nat) ≠ 200) ∧
    ((generateThenCallback (fanState2.controllers 0) ⟨100, 0⟩ "img" fanState2.generationResults
        = fanState2.generationResults) ∧
     (generateCatchCallback (fanState2.controllers 0) ⟨100, 0⟩ "boom" fanState2.generationResults
        = fanState2.generationResults)) :=
  ⟨⟨by decide, by decide, by decide⟩,
   claim4_amended fanState [samplePhoto] "city" 2 200 "opt2" samplePayload 0 100 0
     "img" "boom" (by decide) (by decide) (by decide)⟩

lemma countOptimize_append (a b : List TraceEntry) :
    countOptimize (a ++ b) = countOptimize a + countOptimize b := by
  simp [countOptimize, List.filter_append]

lemma countOptimize_generate_map (l : List GenResult) (m p : String)
    (c : Option Nat) :
    countOptimize (l.map fun _ => TraceEntry.generate m p c) = 0 := by
  induction l with
  | nil => rfl
  | cons a l ih => simp only [List.map_cons, countOptimize, List.filter]; exact ih

lemma countOptimize_optimize_single (p : String) :
    countOptimize [TraceEntry.optimize p] = 1 := rfl

lemma countOptimize_replicate_generate (k : Nat) (m p : String) (c : Option Nat) :
    countOptimize (List.replicate k (TraceEntry.generate m p c)) = 0 := by
  induction k with
  | zero => rfl
  | succ k ih => simp only [List.replicate_succ, countOptimize, List.filter]; exact ih

lemma countOptimize_optimize_cons (p : String) (t : List TraceEntry) :
    countOptimize (TraceEntry.optimize p :: t) = countOptimize t + 1 := by
  simp [countOptimize, List.filter]

lemma handleGenerateToFanout_cache (s : AppState)
    (photos : List UploadedPhoto) (p : String) (n now : Nat)
    (o : String) (payload : Payload)
    (hchars : allCharactersOf photos ≠ [])
    (hprompt : jsTrim p ≠ "") :
    ((handleGenerateToFanout s photos p n now o payload).lastUsedScenePrompt
        = (if cacheHit s p then s.lastUsedScenePrompt else p)) ∧
    ((handleGenerateToFanout s photos p n now o payload).cachedOptimizedPrompt
        = (if cacheHit s p then s.cachedOptimizedPrompt else o)) ∧
    (countOptimize (handleGenerateToFanout s photos p n now o payload).trace
        = countOptimize s.trace + (if cacheHit s p then 0 else 1)) := by
  have hlen : ¬ (allCharactersOf photos).length = 0 := by
    simpa [List.length_eq_zero] using hchars
  simp only [handleGenerateToFanout, handleGenerateStart, if_neg hlen, if_neg hprompt]
  by_cases hp1 : p = s.lastUsedScenePrompt <;>
    by_cases hp2 : s.cachedOptimizedPrompt = "" <;>
      simp [optimizePhase, cacheHit, hp1, hp2, issueOptimizeCall,
        afterOptimizeResolved, Function.update_same, countOptimize_append,
        countOptimize_generate_map, countOptimize_optimize_single,
        countOptimize_replicate_generate, countOptimize_optimize_cons]

/-! Claim C3: single-slot optimization cache across two completed
batches. -/

/-- C3: across two consecutive completed start_batch runs, the second
issues a rewrite (optimize) call exactly when its scene-prompt text is
not byte-identical to the text cached by the first (whose cache slot
indeed holds the first run's text): identical text adds no second
optimize call — at most one is issued across both runs — while changed
text always adds exactly one fresh optimize call on the second run.
The hypothesis `ho1` states that the first run's rewrite result is a
non-empty string, i.e. that a cached rewrite exists afterwards. -/
theorem claim3_cache_idempotence (s0 : AppState)
    (photos1 photos2 : List UploadedPhoto) (p1 p2 : String)
    (n1 n2 t1 t2 : Nat) (o1 o2 : String) (pay1 pay2 : Payload)
    (h1c : allCharactersOf photos1 ≠ []) (h1p : jsTrim p1 ≠ "")
    (h2c : allCharactersOf photos2 ≠ []) (h2p : jsTrim p2 ≠ "")
    (ho1 : o1 ≠ "") :
    ((handleGenerateToFanout s0 photos1 p1 n1 t1 o1 pay1).lastUsedScenePrompt = p1) ∧
    (countOptimize
        (handleGenerateToFanout
          (handleGenerateToFanout s0 photos1 p1 n1 t1 o1 pay1)
          photos2 p2 n2 t2 o2 pay2).trace
      = countOptimize (handleGenerateToFanout s0 photos1 p1 n1 t1 o1 pay1).trace
          + (if p2 = p1 then 0 else 1)) ∧
    (p2 = p1 →
      countOptimize
          (handleGenerateToFanout
            (handleGenerateToFanout s0 photos1 p1 n1 t1 o1 pay1)
            photos2 p2 n2 t2 o2 pay2).trace
        ≤ countOptimize s0.trace + 1) := by
  obtain ⟨h1u, h1cc, h1n⟩ :=
    handleGenerateToFanout_cache s0 photos1 p1 n1 t1 o1 pay1 h1c h1p
  obtain ⟨h2u, h2cc, h2n⟩ :=
    handleGenerateToFanout_cache (handleGenerateToFanout s0 photos1 p1 n1 t1 o1 pay1)
      photos2 p2 n2 t2 o2 pay2 h2c h2p
  have hu : (handleGenerateToFanout s0 photos1 p1 n1 t1 o1 pay1).lastUsedScenePrompt = p1 := by
    by_cases h : cacheHit s0 p1
    · have hp1 : p1 = s0.lastUsedScenePrompt := by
        have := h
        simp only [cacheHit, Bool.and_eq_true, beq_iff_eq] at this
        exact this.1
      simp [h1u, h, ← hp1]
    · simp [h1u, h]
  have hcc : (handleGenerateToFanout s0 photos1 p1 n1 t1 o1 pay1).cachedOptimizedPrompt ≠ "" := by
    by_cases h : cacheHit s0 p1
    · have hne : s0.cachedOptimizedPrompt ≠ "" := by
        have := h
        simp only [cacheHit, Bool.and_eq_true, Bool.not_eq_true', beq_eq_false_iff_ne,
          ne_eq] at this
        exact this.2
      simpa [h1cc, h] using hne
    · simpa [h1cc, h] using ho1
  have hb : ((handleGenerateToFanout s0 photos1 p1 n1 t1 o1 pay1).cachedOptimizedPrompt == "") = false := by
    simpa [beq_eq_false_iff_ne] using hcc
  have hhit2 : cacheHit (handleGenerateToFanout s0 photos1 p1 n1 t1 o1 pay1) p2
      = decide (p2 = p1) := by
    by_cases hp : p2 = p1 <;> simp [cacheHit, hu, hb, hp]
  refine ⟨hu, ?_, ?_⟩
  · rw [h2n, hhit2]
    by_cases hp : p2 = p1 <;> simp [hp]
  · intro hp
    rw [h2n, hhit2]
    simp only [hp, decide_eq_true_eq]
    have : countOptimize (handleGenerateToFanout s0 photos1 p1 n1 t1 o1 pay1).trace
        ≤ countOptimize s0.trace + 1 := by
      rw [h1n]
      by_cases h : cacheHit s0 p1 <;> simp [h]
    simpa using this

/-- Witness for C3 at a concrete input: two batches with the identical
prompt "beach"; the second issues no new optimize call and at most one
is issued in total. -/
theorem claim3_cache_idempotence_witness :
    (allCharactersOf [samplePhoto] ≠ [] ∧ jsTrim "beach" ≠ "" ∧ ("opt" : String) ≠ "") ∧
    ((handleGenerateToFanout initialAppState [samplePhoto] "beach" 2 100 "opt" samplePayload).lastUsedScenePrompt = "beach" ∧
     (countOptimize
        (handleGenerateToFanout
          (handleGenerateToFanout initialAppState [samplePhoto] "beach" 2 100 "opt" samplePayload)
          [samplePhoto] "beach" 2 200 "opt2" samplePayload).trace
       = countOptimize (handleGenerateToFanout initialAppState [samplePhoto] "beach" 2 100 "opt" samplePayload).trace
           + (if ("beach" : String) = "beach" then 0 else 1)) ∧
     (("beach" : String) = "beach" →
       countOptimize
          (handleGenerateToFanout
            (handleGenerateToFanout initialAppState [samplePhoto] "beach" 2 100 "opt" samplePayload)
            [samplePhoto] "beach" 2 200 "opt2" samplePayload).trace
         ≤ countOptimize initialAppState.trace + 1)) :=
  ⟨⟨by decide, by decide, by decide⟩,
   claim3_cache_idempotence initialAppState [samplePhoto] [samplePhoto] "beach" "beach"
     2 2 100 200 "opt" "opt2" samplePayload samplePayload
     (by decide) (by decide) (by decide) (by decide) (by decide)⟩

/-! Claim C1: cancellation is terminal for pending items. -/

lemma statusOf_map_of_id_preserving (f : GenResult → GenResult)
    (hf : ∀ r, (f r).id = r.id) (l : List GenResult) (i : GenId) :
    statusOf (l.map f) i = (itemOf l i).map fun r => (f r).status := by
  rw [statusOf, itemOf_map_of_id_preserving f hf, Option.map_map]
  rfl

lemma cancelPendingResult_id (r : GenResult) :
    (cancelPendingResult r).id = r.id := by
  unfold cancelPendingResult
  split <;> rfl

lemma statusOf_cancelPending_of_pending (l : List GenResult) (i : GenId)
    (h : statusOf l i = some GenStatus.pending) :
    statusOf (l.map cancelPendingResult) i = some GenStatus.cancelled := by
  rw [statusOf_map_of_id_preserving cancelPendingResult cancelPendingResult_id]
  obtain ⟨r, hr, hrs⟩ := Option.map_eq_some'.mp h
  simp [hr, cancelPendingResult, hrs]

lemma statusOf_cancelPending_of_cancelled (l : List GenResult) (i : GenId)
    (h : statusOf l i = some GenStatus.cancelled) :
    statusOf (l.map cancelPendingResult) i = some GenStatus.cancelled := by
  rw [statusOf_map_of_id_preserving cancelPendingResult cancelPendingResult_id]
  obtain ⟨r, hr, hrs⟩ := Option.map_eq_some'.mp h
  simp [hr, cancelPendingResult, hrs]

lemma statusOf_cancel_guard_of_cancelled (l : List GenResult) (i i2 : GenId)
    (h : statusOf l i = some GenStatus.cancelled) :
    statusOf (l.map fun r =>
      if r.id = i2 then { r with status := GenStatus.cancelled } else r) i
      = some GenStatus.cancelled := by
  rw [statusOf_map_of_id_preserving _ (fun r => by split <;> rfl)]
  obtain ⟨r, hr, hrs⟩ := Option.map_eq_some'.mp h
  by_cases hir : r.id = i2 <;> simp [hr, hir, hrs]

lemma handleCancel_results (s : AppState) :
    (handleCancel s).generationResults
      = s.generationResults.map cancelPendingResult := by
  unfold handleCancel
  cases s.abortControllerRef <;> rfl

lemma handleCancel_controllers_aborts (s : AppState) (c : Nat)
    (h : s.abortControllerRef = some c) :
    (handleCancel s).controllers c = true := by
  unfold handleCancel
  rw [h]
  simp [Function.update_same]

lemma stepApp_controllers_mono (s : AppState) (ev : AppEvent) (c : Nat)
    (h : s.controllers c = true) : (stepApp s ev).controllers c = true := by
  cases ev with
  | cancel =>
    show (handleCancel s).controllers c = true
    unfold handleCancel
    cases href : s.abortControllerRef with
    | none => simpa using h
    | some c2 =>
      by_cases hc : c = c2 <;> simp [Function.update_apply, hc, h]
  | genSuccess c2 i img => simpa [stepApp] using h
  | genFailure c2 i msg => simpa [stepApp] using h

lemma runApp_keeps_cancelled (evs : List AppEvent) :
    ∀ (s : AppState) (c : Nat) (i : GenId),
      s.controllers c = true →
      statusOf s.generationResults i = some GenStatus.cancelled →
      (∀ ev ∈ evs, evUses c ev) →
      statusOf (runApp s evs).generationResults i = some GenStatus.cancelled := by
  induction evs with
  | nil => intro s c i _ h2 _; exact h2
  | cons ev evs ih =>
    intro s c i h1 h2 hall
    have hstep : statusOf (stepApp s ev).generationResults i
        = some GenStatus.cancelled := by
      cases ev with
      | cancel =>
        show statusOf (handleCancel s).generationResults i = some GenStatus.cancelled
        rw [handleCancel_results]
        exact statusOf_cancelPending_of_cancelled _ _ h2
      | genSuccess c2 i2 img =>
        have hc2 : c2 = c :=
          hall (AppEvent.genSuccess c2 i2 img) (List.mem_cons_self _ _)
        subst hc2
        simpa [stepApp, generateThenCallback, h1] using h2
      | genFailure c2 i2 msg =>
        have hc2 : c2 = c :=
          hall (AppEvent.genFailure c2 i2 msg) (List.mem_cons_self _ _)
        subst hc2
        simp only [stepApp, generateCatchCallback, h1, Bool.true_or, if_pos]
        exact statusOf_cancel_guard_of_cancelled _ _ _ h2
    exact ih (stepApp s ev) c i (stepApp_controllers_mono s ev c h1) hstep
      (fun e he => hall e (by simp [he]))

/-- C1: once cancel_batch runs on an active batch, every item pending
at that moment is cancelled immediately, and stays cancelled through
any later resolutions of that batch's in-flight generate calls (and
further cancels): the per-item callbacks are gated on the batch's
cancellation signal, so the item never transitions to success or
error afterwards. -/
theorem claim1_cancel_terminal (s : AppState) (c : Nat) (i : GenId)
    (evs : List AppEvent)
    (href : s.abortControllerRef = some c)
    (hpend : statusOf s.generationResults i = some GenStatus.pending)
    (hevs : ∀ ev ∈ evs, evUses c ev) :
    (statusOf (stepApp s AppEvent.cancel).generationResults i
       = some GenStatus.cancelled) ∧
    (statusOf (runApp (stepApp s AppEvent.cancel) evs).generationResults i
       = some GenStatus.cancelled) := by
  have hcancelled : statusOf (handleCancel s).generationResults i
      = some GenStatus.cancelled := by
    rw [handleCancel_results]
    exact statusOf_cancelPending_of_pending _ _ hpend
  refine ⟨hcancelled, ?_⟩
  exact runApp_keeps_cancelled evs (handleCancel s) c i
    (handleCancel_controllers_aborts s c href) hcancelled hevs

/-- Witness for C1 at a concrete input: cancelling `fanState` and then
letting both in-flight calls resolve (one success, one failure) leaves
item (100,0) cancelled. -/
theorem claim1_cancel_terminal_witness :
    (fanState.abortControllerRef = some 0 ∧
     statusOf fanState.generationResults ⟨100, 0⟩ = some GenStatus.pending) ∧
    ((statusOf (stepApp fanState AppEvent.cancel).generationResults ⟨100, 0⟩
        = some GenStatus.cancelled) ∧
     (statusOf (runApp (stepApp fanState AppEvent.cancel)
          [AppEvent.genSuccess 0 ⟨100, 0⟩ "img", AppEvent.genFailure 0 ⟨100, 1⟩ "boom"]).generationResults
          ⟨100, 0⟩
        = some GenStatus.cancelled)) :=
  ⟨⟨by decide, by decide⟩,
   claim1_cancel_terminal fanState 0 ⟨100, 0⟩
     [AppEvent.genSuccess 0 ⟨100, 0⟩ "img", AppEvent.genFailure 0 ⟨100, 1⟩ "boom"]
     (by decide) (by decide)
     (by
       intro ev hev
       simp only [List.mem_cons, List.not_mem_nil, or_false] at hev
       rcases hev with rfl | rfl
       · exact rfl
       · exact rfl)⟩

/-! Claim C7: per-item failures are isolated. -/

/-- C7: when one generate call of an un-cancelled batch fails, only the
item carrying that call's id changes (it becomes error, with the quota
flag computed from the message); any sibling item's record is left
entirely unchanged by the failure, and a sibling's own later resolution
still settles it to its own outcome (here: success with its image). -/
theorem claim7_failure_isolated (s : AppState) (c c2 : Nat)
    (idf id2 : GenId) (rf sib : GenResult) (msg img : String)
    (hrf : itemOf s.generationResults idf = some rf)
    (hsib : itemOf s.generationResults id2 = some sib)
    (hne : id2 ≠ idf)
    (hc : s.controllers c = false)
    (hc2 : s.controllers c2 = false)
    (hmsg : msg ≠ "Cancelled") :
    (itemOf (stepApp s (AppEvent.genFailure c idf msg)).generationResults idf
       = some { rf with status := GenStatus.error
                      , errorMessage := some msg
                      , isQuotaError := some (isQuotaErrorMsg msg) }) ∧
    (itemOf (stepApp s (AppEvent.genFailure c idf msg)).generationResults id2
       = some sib) ∧
    (itemOf (stepApp (stepApp s (AppEvent.genFailure c idf msg))
          (AppEvent.genSuccess c2 id2 img)).generationResults id2
       = some { sib with status := GenStatus.success, imageUrl := some img }) := by
  have hfid : rf.id = idf := itemOf_eq_some_id hrf
  have hsid : sib.id = id2 := itemOf_eq_some_id hsib
  have hmsgb : (msg == "Cancelled") = false := by
    simpa [beq_eq_false_iff_ne] using hmsg
  have hres1 : (stepApp s (AppEvent.genFailure c idf msg)).generationResults
      = s.generationResults.map fun r =>
          if r.id = idf then
            { r with status := GenStatus.error
                   , errorMessage := some msg
                   , isQuotaError := some (isQuotaErrorMsg msg) }
          else r := by
    simp [stepApp, generateCatchCallback, hc, hmsgb]
  have hpres : ∀ r : GenResult,
      ((fun r : GenResult =>
          if r.id = idf then
            { r with status := GenStatus.error
                   , errorMessage := some msg
                   , isQuotaError := some (isQuotaErrorMsg msg) }
          else r) r).id = r.id := by
    intro r
    by_cases h : r.id = idf <;> simp [h]
  refine ⟨?_, ?_, ?_⟩
  · rw [hres1, itemOf_map_of_id_preserving _ hpres, hrf]
    simp [hfid]
  · rw [hres1, itemOf_map_of_id_preserving _ hpres, hsib]
    simp [hsid, hne]
  · have hc2b : (stepApp s (AppEvent.genFailure c idf msg)).controllers c2 = false := by
      simpa [stepApp] using hc2
    have hsib1 : itemOf (stepApp s (AppEvent.genFailure c idf msg)).generationResults id2
        = some sib := by
      rw [hres1, itemOf_map_of_id_preserving _ hpres, hsib]
      simp [hsid, hne]
    have hpres2 : ∀ r : GenResult,
        ((fun r : GenResult =>
            if r.id = id2 then
              { r with status := GenStatus.success, imageUrl := some img }
            else r) r).id = r.id := by
      intro r
      by_cases h : r.id = id2 <;> simp [h]
    show itemOf (generateThenCallback
        ((stepApp s (AppEvent.genFailure c idf msg)).controllers c2) id2 img
        (stepApp s (AppEvent.genFailure c idf msg)).generationResults) id2
      = some { sib with status := GenStatus.success, imageUrl := some img }
    rw [hc2b]
    unfold generateThenCallback
    simp only [Bool.false_eq_true, if_false]
    rw [itemOf_map_of_id_preserving _ hpres2, hsib1]
    simp [hsid]

/-- Witness for C7 at a concrete input: in `fanState`, item (100,0)
fails with a quota-shaped message while item (100,1) later succeeds. -/
theorem claim7_failure_isolated_witness :
    (itemOf fanState.generationResults ⟨100, 0⟩
        = some { id := ⟨100, 0⟩, status := GenStatus.pending } ∧
     itemOf fanState.generationResults ⟨100, 1⟩
        = some { id := ⟨100, 1⟩, status := GenStatus.pending } ∧
     (⟨100, 1⟩ : GenId) ≠ ⟨100, 0⟩ ∧
     fanState.controllers 0 = false ∧
     ("Quota Exceeded (429)" : String) ≠ "Cancelled") ∧
    ((itemOf (stepApp fanState (AppEvent.genFailure 0 ⟨100, 0⟩ "Quota Exceeded (429)")).generationResults ⟨100, 0⟩
        = some { id := ⟨100, 0⟩, status := GenStatus.error
               , errorMessage := some "Quota Exceeded (429)"
               , isQuotaError := some (isQuotaErrorMsg "Quota Exceeded (429)") }) ∧
     (itemOf (stepApp fanState (AppEvent.genFailure 0 ⟨100, 0⟩ "Quota Exceeded (429)")).generationResults ⟨100, 1⟩
        = some { id := ⟨100, 1⟩, status := GenStatus.pending }) ∧
     (itemOf (stepApp (stepApp fanState (AppEvent.genFailure 0 ⟨100, 0⟩ "Quota Exceeded (429)"))
          (AppEvent.genSuccess 0 ⟨100, 1⟩ "img")).generationResults ⟨100, 1⟩
        = some { id := ⟨100, 1⟩, status := GenStatus.success, imageUrl := some "img" })) :=
  ⟨⟨by decide, by decide, by decide, by decide, by decide⟩,
   claim7_failure_isolated fanState 0 0 ⟨100, 0⟩ ⟨100, 1⟩
     { id := ⟨100, 0⟩, status := GenStatus.pending }
     { id := ⟨100, 1⟩, status := GenStatus.pending }
     "Quota Exceeded (429)" "img"
     (by decide) (by decide) (by decide) (by decide) (by decide) (by decide)⟩

/-! Facts about handleRetryImage, and claims C6 and C9. -/

lemma handleRetryImage_payload (s : AppState) (f : GenResult)
    (o : RetryOutcome) :
    (handleRetryImage s f o).lastGeneratedPayload = s.lastGeneratedPayload := by
  unfold handleRetryImage
  split
  · rfl
  · split
    · rfl
    · cases o <;> rfl

lemma map_ids_of_id_preserving (g : GenResult → GenResult)
    (hg : ∀ r, (g r).id = r.id) (l : List GenResult) :
    (l.map g).map (·.id) = l.map (·.id) := by
  rw [List.map_map]
  exact List.map_congr_left fun a _ => hg a

lemma handleRetryImage_ids (s : AppState) (f : GenResult) (o : RetryOutcome) :
    (handleRetryImage s f o).generationResults.map (·.id)
      = s.generationResults.map (·.id) := by
  unfold handleRetryImage
  cases s.lastGeneratedPayload with
  | none => rfl
  | some payload =>
    cases s.generationResults.find? (fun r => r.id == f.id) with
    | none => rfl
    | some r =>
      cases o with
      | success img =>
        rw [map_ids_of_id_preserving _ (fun r => by split <;> rfl)]
        rw [map_ids_of_id_preserving _ (fun r => by split <;> rfl)]
      | failure msg =>
        rw [map_ids_of_id_preserving _ (fun r => by split <;> rfl)]
        rw [map_ids_of_id_preserving _ (fun r => by split <;> rfl)]

lemma handleRetryImage_trace (s : AppState) (f : GenResult)
    (o : RetryOutcome) (payload : Payload)
    (hp : s.lastGeneratedPayload = some payload)
    (hid : f.id ∈ s.generationResults.map (·.id)) :
    (handleRetryImage s f o).trace = s.trace ++ retryBlock payload f := by
  have hfind : (s.generationResults.find? (fun r => r.id == f.id)).isSome := by
    rw [List.find?_isSome]
    simp only [List.mem_map] at hid
    obtain ⟨r, hrmem, hrid⟩ := hid
    exact ⟨r, hrmem, by simp [hrid]⟩
  obtain ⟨r, hr⟩ := Option.isSome_iff_exists.mp hfind
  unfold handleRetryImage
  rw [hp, hr]
  cases o <;> simp [retryBlock]

/-- C6: a retry issues exactly one generate call, against the
alternate/cheaper model identifier gemini-2.5-flash-image exactly when
the retried item carries isQuotaError = true, and against the default
identifier gemini-3-pro-image-preview when the flag is false or
absent; the call carries no cancellation signal. -/
theorem claim6_retry_model_choice (s : AppState) (f : GenResult)
    (o : RetryOutcome) (payload : Payload)
    (hp : s.lastGeneratedPayload = some payload)
    (hid : f.id ∈ s.generationResults.map (·.id)) :
    (handleRetryImage s f o).trace = s.trace ++
      [ TraceEntry.generate
          (if f.isQuotaError.getD false then "gemini-2.5-flash-image"
           else "gemini-3-pro-image-preview")
          (retryPromptVariation payload.fullPrompt (f.retryCount.getD 0)) none
      , TraceEntry.settled f.id ] := by
  rw [handleRetryImage_trace s f o payload hp hid]
  have h1 : generateModelName (some "gemini-2.5-flash-image")
      = "gemini-2.5-flash-image" := rfl
  have h2 : generateModelName none = "gemini-3-pro-image-preview" := rfl
  by_cases hq : f.isQuotaError.getD false <;>
    simp [retryBlock, retryModelOverride, hq, h1, h2]

/-- Witness for C6 at a concrete input: retrying the quota-failed item
of `errState` issues its single call against the flash model. -/
theorem claim6_retry_model_choice_witness :
    (errState.lastGeneratedPayload = some samplePayload ∧
     ({ id := ⟨100, 0⟩, status := GenStatus.error
      , errorMessage := some "Quota Exceeded (429)"
      , isQuotaError := some true } : GenResult).id
        ∈ errState.generationResults.map (·.id)) ∧
    ((handleRetryImage errState
        { id := ⟨100, 0⟩, status := GenStatus.error
        , errorMessage := some "Quota Exceeded (429)"
        , isQuotaError := some true }
        (RetryOutcome.success "img2")).trace = errState.trace ++
      [ TraceEntry.generate
          (if ({ id := ⟨100, 0⟩, status := GenStatus.error
               , errorMessage := some "Quota Exceeded (429)"
               , isQuotaError := some true } : GenResult).isQuotaError.getD false
           then "gemini-2.5-flash-image"
           else "gemini-3-pro-image-preview")
          (retryPromptVariation samplePayload.fullPrompt
            (({ id := ⟨100, 0⟩, status := GenStatus.error
              , errorMessage := some "Quota Exceeded (429)"
              , isQuotaError := some true } : GenResult).retryCount.getD 0)) none
      , TraceEntry.settled ⟨100, 0⟩ ]) :=
  ⟨⟨by decide, by decide⟩,
   claim6_retry_model_choice errState
     { id := ⟨100, 0⟩, status := GenStatus.error
     , errorMessage := some "Quota Exceeded (429)"
     , isQuotaError := some true }
     (RetryOutcome.success "img2") samplePayload (by decide) (by decide)⟩

lemma retryAll_fold_trace (payload : Payload) (outcomes : GenId → RetryOutcome) :
    ∀ (fs : List GenResult) (st : AppState),
      st.lastGeneratedPayload = some payload →
      (∀ f ∈ fs, f.id ∈ st.generationResults.map (·.id)) →
      (fs.foldl (fun st2 f => handleRetryImage st2 f (outcomes f.id)) st).trace
        = st.trace ++ fs.flatMap (retryBlock payload) := by
  intro fs
  induction fs with
  | nil => intro st _ _; simp
  | cons f fs ih =>
    intro st h1 h2
    have hid : f.id ∈ st.generationResults.map (·.id) := h2 f (by simp)
    rw [List.foldl_cons]
    rw [ih (handleRetryImage st f (outcomes f.id))
      (by rw [handleRetryImage_payload]; exact h1)
      (fun g hg => by rw [handleRetryImage_ids]; exact h2 g (by simp [hg]))]
    rw [handleRetryImage_trace st f (outcomes f.id) payload h1 hid]
    simp [List.append_assoc]

/-- C9: retry_all_failed retries the items currently in error state
strictly sequentially: the trace it appends is the concatenation, one
failed item after the other in list order, of that item's retryBlock —
its single generate call immediately followed by its settlement — so
item k+1's call is only issued after item k's retry has settled. -/
theorem claim9_sequential_retries (s : AppState)
    (outcomes : GenId → RetryOutcome) (payload : Payload)
    (hp : s.lastGeneratedPayload = some payload) :
    (handleRetryAllFailed s outcomes).trace
      = s.trace ++
        (s.generationResults.filter fun r => r.status == GenStatus.error).flatMap
          (retryBlock payload) := by
  unfold handleRetryAllFailed
  refine retryAll_fold_trace payload outcomes _ s hp ?_
  intro f hf
  exact List.mem_map_of_mem _ (List.mem_of_mem_filter hf)

/-- Witness for C9 at a concrete input: `errState` has one failed item;
retry-all appends exactly its call-then-settlement block. -/
theorem claim9_sequential_retries_witness :
    (errState.lastGeneratedPayload = some samplePayload) ∧
    ((handleRetryAllFailed errState fun _ => RetryOutcome.failure "boom").trace
      = errState.trace ++
        (errState.generationResults.filter fun r => r.status == GenStatus.error).flatMap
          (retryBlock samplePayload)) :=
  ⟨by decide,
   claim9_sequential_retries errState (fun _ => RetryOutcome.failure "boom")
     samplePayload (by decide)⟩
